import Mathlib

/-!
Verification development for the agent-driven browser execution core:
a shallow embedding of (a) the hybrid remote execution adapter with its
pending-command correlation map, (b) the in-process browser session
manager, (c) the agent action loop, and (d) the action schema
normalization pass, together with theorems about their behavior.
-/

namespace Qaos

/-- The BrowserAction record passed through the execution-adapter contract
(source: execution-adapter interface, fields action/x/y/text/direction/url). -/
structure BrowserAction where
  action : String
  x : Option Int := none
  y : Option Int := none
  text : Option String := none
  direction : Option String := none
  url : Option String := none
deriving DecidableEq, Repr

namespace Hybrid

/-- A protocol frame emitted by the hybrid adapter over the active stream.
Only the fields relevant to correlation are modelled; the args payload of
run.next_action is carried as the action name alone. -/
inductive ProtocolMsg where
  | runNextAction (runId : String) (stepId : Nat) (actionName : String)
  | runStop (runId : String)
deriving DecidableEq, Repr

/-- State of the hybrid LocalExecutionAdapter: whether a transport
(activeStream) is attached, the step ids holding a registered
PendingCommand (the keys of pendingRequests; the timeout timer of an entry
is armed exactly while its id is in this list, since handleResult,
disconnect and the timeout handler itself all remove the entry when they
clear or consume the timer), and the monotone stepCounter used to allocate
fresh step ids.  A step id is modelled by the counter value alone: the
Date.now component of the source id only adds uniqueness that the strictly
increasing counter already provides. -/
structure AdapterState where
  activeStream : Bool
  pending : List Nat
  stepCounter : Nat
deriving DecidableEq, Repr

/-- The connectivity error thrown by sendCommand when no transport is
attached (source message, quoting removed). -/
def connectivityError : String :=
  "Hybrid execution mode is selected but no local executor is connected yet. Run npm run executor in a separate terminal to connect."

/-- LocalExecutionAdapter.sendCommand, synchronous part: throws immediately
when no activeStream is attached — the returned state is the input state,
so no pending entry is created and no timer is registered; otherwise it
allocates a fresh step id, registers a PendingCommand (arming its timeout
timer) and emits a run.next_action frame.  The eventual settlement of the
registered command is modelled by the event-trace semantics below. -/
def sendCommandM (s : AdapterState) (sessionId actionName : String) :
    AdapterState × Except String (Nat × ProtocolMsg) :=
  if s.activeStream then
    ({ s with pending := s.stepCounter :: s.pending, stepCounter := s.stepCounter + 1 },
      .ok (s.stepCounter, .runNextAction sessionId s.stepCounter actionName))
  else
    (s, .error connectivityError)

/-- LocalExecutionAdapter.getPage: dispatches a goto command only when a
url is given. -/
def getPage (s : AdapterState) (sessionId : String) (url : Option String) :
    AdapterState × Except String Unit :=
  match url with
  | some _ =>
      let r := sendCommandM s sessionId "goto"
      (r.1, r.2.map fun _ => ())
  | none => (s, .ok ())

/-- LocalExecutionAdapter.captureScreenshot, dispatch part: sends a
getScreenshot command. -/
def captureScreenshot (s : AdapterState) (sessionId : String) :
    AdapterState × Except String Unit :=
  let r := sendCommandM s sessionId "getScreenshot"
  (r.1, r.2.map fun _ => ())

/-- LocalExecutionAdapter.getSimplifiedDOM, dispatch part: sends a getDOM
command. -/
def getSimplifiedDOM (s : AdapterState) (sessionId : String) :
    AdapterState × Except String Unit :=
  let r := sendCommandM s sessionId "getDOM"
  (r.1, r.2.map fun _ => ())

/-- LocalExecutionAdapter.executeAction: sends the action through
sendCommand under its action name. -/
def executeAction (s : AdapterState) (sessionId : String) (a : BrowserAction) :
    AdapterState × Except String Unit :=
  let r := sendCommandM s sessionId a.action
  (r.1, r.2.map fun _ => ())

/-- Outcome with which a PendingCommand promise settles. -/
inductive Outcome where
  | resolved
  | rejectedError
  | rejectedTimeout
  | rejectedDisconnect
deriving DecidableEq, Repr

/-- Events acting on the adapter state: registerConnection, disconnect, a
sendCommand dispatch, a posted run.action_result delivered to handleResult,
and the firing of a pending command timeout timer.  A timer can fire only
while its entry is pending: handleResult and disconnect clear the timer
exactly when they remove the entry, and the timeout handler removes the
entry itself, so timer-armed coincides with list membership. -/
inductive Event where
  | connect
  | disconnect
  | send (actionName : String)
  | result (stepId : Nat) (ok : Bool)
  | timeoutFire (stepId : Nat)
deriving DecidableEq, Repr

/-- One transition of the adapter: the successor state together with the
settlements (step id, outcome) the event performs. -/
def stepAdapter (s : AdapterState) : Event → AdapterState × List (Nat × Outcome)
  | .connect => ({ s with activeStream := true }, [])
  | .disconnect =>
      ({ s with activeStream := false, pending := [] },
        s.pending.map fun id => (id, .rejectedDisconnect))
  | .send actionName =>
      ((sendCommandM s "run" actionName).1, [])
  | .result stepId ok =>
      if stepId ∈ s.pending then
        ({ s with pending := s.pending.erase stepId },
          [(stepId, if ok then .resolved else .rejectedError)])
      else (s, [])
  | .timeoutFire stepId =>
      if stepId ∈ s.pending then
        ({ s with pending := s.pending.erase stepId }, [(stepId, .rejectedTimeout)])
      else (s, [])

/-- Run a trace of events, collecting every settlement performed. -/
def runTrace (s : AdapterState) : List Event → AdapterState × List (Nat × Outcome)
  | [] => (s, [])
  | e :: es =>
      let r := stepAdapter s e
      let rest := runTrace r.1 es
      (rest.1, r.2 ++ rest.2)

/-- How many settlements in the list concern the given step id. -/
def settledCount (l : List (Nat × Outcome)) (id : Nat) : Nat :=
  l.countP fun p => p.1 == id

/-- Whether the given step id currently has a pending entry (0 or 1). -/
def pendCount (s : AdapterState) (id : Nat) : Nat :=
  if id ∈ s.pending then 1 else 0

/-- 1 when the event is a send that allocates the given step id in the
given state, 0 otherwise. -/
def allocOf (s : AdapterState) (e : Event) (id : Nat) : Nat :=
  match e with
  | .send _ => if s.activeStream = true ∧ s.stepCounter = id then 1 else 0
  | _ => 0

/-- Number of send events in the trace that allocate the given step id. -/
def dispatchCount : AdapterState → List Event → Nat → Nat
  | _, [], _ => 0
  | s, e :: es, id => allocOf s e id + dispatchCount (stepAdapter s e).1 es id

/-- Adapter-state invariant: pending step ids are distinct and below the
allocation counter. -/
def Inv (s : AdapterState) : Prop :=
  s.pending.Nodup ∧ ∀ id ∈ s.pending, id < s.stepCounter

theorem inv_step (s : AdapterState) (e : Event) (hs : Inv s) : Inv (stepAdapter s e).1 := by
  obtain ⟨hnd, hlt⟩ := hs
  cases e with
  | connect => exact ⟨hnd, hlt⟩
  | disconnect =>
      refine ⟨List.nodup_nil, ?_⟩
      intro id h
      simp [stepAdapter] at h
  | send a =>
      simp only [stepAdapter, sendCommandM]
      by_cases hc : s.activeStream
      · simp only [hc, if_true]
        refine ⟨?_, ?_⟩
        · show (s.stepCounter :: s.pending).Nodup
          refine List.nodup_cons.mpr ⟨?_, hnd⟩
          intro hmem
          exact absurd (hlt _ hmem) (lt_irrefl _)
        · show ∀ id ∈ s.stepCounter :: s.pending, id < s.stepCounter + 1
          intro id h
          rcases List.mem_cons.mp h with h | h
          · omega
          · exact Nat.lt_succ_of_lt (hlt _ h)
      · simp only [hc, if_false]
        exact ⟨hnd, hlt⟩
  | result stepId ok =>
      simp only [stepAdapter]
      by_cases hm : stepId ∈ s.pending
      · rw [if_pos hm]
        refine ⟨hnd.erase _, ?_⟩
        intro id h
        exact hlt _ (List.mem_of_mem_erase h)
      · rw [if_neg hm]
        exact ⟨hnd, hlt⟩
  | timeoutFire stepId =>
      simp only [stepAdapter]
      by_cases hm : stepId ∈ s.pending
      · rw [if_pos hm]
        refine ⟨hnd.erase _, ?_⟩
        intro id h
        exact hlt _ (List.mem_of_mem_erase h)
      · rw [if_neg hm]
        exact ⟨hnd, hlt⟩

theorem counter_mono_step (s : AdapterState) (e : Event) :
    s.stepCounter ≤ (stepAdapter s e).1.stepCounter := by
  cases e with
  | connect => exact le_refl _
  | disconnect => exact le_refl _
  | send a =>
      simp only [stepAdapter, sendCommandM]
      by_cases hc : s.activeStream
      · simp [hc]
      · simp [hc]
  | result stepId ok =>
      simp only [stepAdapter]
      by_cases hm : stepId ∈ s.pending
      · rw [if_pos hm]
      · rw [if_neg hm]
  | timeoutFire stepId =>
      simp only [stepAdapter]
      by_cases hm : stepId ∈ s.pending
      · rw [if_pos hm]
      · rw [if_neg hm]

theorem allocOf_eq_zero_of_lt (s : AdapterState) (e : Event) (id : Nat)
    (hid : id < s.stepCounter) : allocOf s e id = 0 := by
  cases e with
  | send a =>
      have : ¬(s.activeStream = true ∧ s.stepCounter = id) := by
        rintro ⟨_, h⟩
        omega
      simp [allocOf, this]
  | connect => rfl
  | disconnect => rfl
  | result stepId ok => rfl
  | timeoutFire stepId => rfl

theorem dispatchCount_eq_zero_of_lt (es : List Event) :
    ∀ (s : AdapterState) (id : Nat), id < s.stepCounter → dispatchCount s es id = 0 := by
  induction es with
  | nil => intro s id _; rfl
  | cons e es ih =>
      intro s id hid
      have hrec : dispatchCount (stepAdapter s e).1 es id = 0 :=
        ih _ _ (lt_of_lt_of_le hid (counter_mono_step s e))
      have halloc := allocOf_eq_zero_of_lt s e id hid
      simp [dispatchCount, halloc, hrec]

theorem dispatchCount_le_one (es : List Event) :
    ∀ (s : AdapterState) (id : Nat), dispatchCount s es id ≤ 1 := by
  induction es with
  | nil => intro s id; simp [dispatchCount]
  | cons e es ih =>
      intro s id
      by_cases halloc : allocOf s e id = 0
      · have := ih (stepAdapter s e).1 id
        simp [dispatchCount, halloc]
        omega
      · have h1 : allocOf s e id = 1 ∧ ∃ a, e = .send a ∧ s.activeStream = true
            ∧ s.stepCounter = id := by
          cases e with
          | send a =>
              by_cases hc : s.activeStream = true ∧ s.stepCounter = id
              · exact ⟨by simp [allocOf, hc], a, rfl, hc.1, hc.2⟩
              · exact absurd (by simp [allocOf, hc]) halloc
          | connect => exact absurd rfl halloc
          | disconnect => exact absurd rfl halloc
          | result stepId ok => exact absurd rfl halloc
          | timeoutFire stepId => exact absurd rfl halloc
        obtain ⟨ha1, a, he, hact, hid⟩ := h1
        subst he
        have hcounter : id < (stepAdapter s (.send a)).1.stepCounter := by
          have : (stepAdapter s (.send a)).1.stepCounter = s.stepCounter + 1 := by
            simp [stepAdapter, sendCommandM, hact]
          omega
        have hz := dispatchCount_eq_zero_of_lt es _ _ hcounter
        simp [dispatchCount, ha1, hz]

theorem settle_conservation_step (s : AdapterState) (e : Event) (id : Nat) (hs : Inv s) :
    settledCount (stepAdapter s e).2 id + pendCount (stepAdapter s e).1 id
      = pendCount s id + allocOf s e id := by
  obtain ⟨hnd, hlt⟩ := hs
  cases e with
  | connect => simp [stepAdapter, settledCount, pendCount, allocOf]
  | disconnect =>
      simp only [stepAdapter, settledCount, pendCount, allocOf]
      have hmap : (List.countP (fun p => p.1 == id)
          (s.pending.map fun i => (i, Outcome.rejectedDisconnect))) = s.pending.count id := by
        rw [List.countP_map]
        rfl
      rw [hmap]
      by_cases hm : id ∈ s.pending
      · rw [List.count_eq_one_of_mem hnd hm, if_pos hm]
        simp
      · rw [List.count_eq_zero_of_not_mem hm, if_neg hm]
        simp
  | send a =>
      simp only [stepAdapter, sendCommandM, settledCount, pendCount, allocOf]
      by_cases hc : s.activeStream
      · by_cases hid : s.stepCounter = id
        · have hnm : id ∉ s.pending := by
            intro hmem
            have := hlt _ hmem
            omega
          have hmem2 : id ∈ s.stepCounter :: s.pending := by
            simp [List.mem_cons, hid.symm]
          simp [hc, hid, hnm, hmem2]
        · have hiff : id ∈ s.stepCounter :: s.pending ↔ id ∈ s.pending := by
            simp only [List.mem_cons]
            constructor
            · rintro (h | h)
              · exact absurd h.symm hid
              · exact h
            · exact Or.inr
          by_cases hm : id ∈ s.pending
          · simp [hc, hid, hm, hiff.mpr hm]
          · have : id ∉ s.stepCounter :: s.pending := fun h => hm (hiff.mp h)
            simp [hc, hid, hm, this]
      · simp [hc]
  | result stepId ok =>
      simp only [stepAdapter, settledCount, pendCount, allocOf]
      by_cases hm : stepId ∈ s.pending
      · simp only [if_pos hm]
        by_cases hid : stepId = id
        · subst hid
          have herase : stepId ∉ s.pending.erase stepId := hnd.not_mem_erase
          simp [hm, herase]
        · have herase : id ∈ s.pending.erase stepId ↔ id ∈ s.pending :=
            List.mem_erase_of_ne (fun hh => hid hh.symm)
          by_cases hm2 : id ∈ s.pending
          · simp [hid, hm2, herase.mpr hm2]
          · have : id ∉ s.pending.erase stepId := fun h => hm2 (herase.mp h)
            simp [hid, hm2, this]
      · simp only [if_neg hm]
        simp
  | timeoutFire stepId =>
      simp only [stepAdapter, settledCount, pendCount, allocOf]
      by_cases hm : stepId ∈ s.pending
      · simp only [if_pos hm]
        by_cases hid : stepId = id
        · subst hid
          have herase : stepId ∉ s.pending.erase stepId := hnd.not_mem_erase
          simp [hm, herase]
        · have herase : id ∈ s.pending.erase stepId ↔ id ∈ s.pending :=
            List.mem_erase_of_ne (fun hh => hid hh.symm)
          by_cases hm2 : id ∈ s.pending
          · simp [hid, hm2, herase.mpr hm2]
          · have : id ∉ s.pending.erase stepId := fun h => hm2 (herase.mp h)
            simp [hid, hm2, this]
      · simp only [if_neg hm]
        simp

theorem settle_conservation (es : List Event) :
    ∀ (s : AdapterState) (id : Nat), Inv s →
      settledCount (runTrace s es).2 id + pendCount (runTrace s es).1 id
        = pendCount s id + dispatchCount s es id := by
  induction es with
  | nil => intro s id _; simp [runTrace, settledCount, dispatchCount]
  | cons e es ih =>
      intro s id hs
      have hstep := settle_conservation_step s e id hs
      have hrec := ih (stepAdapter s e).1 id (inv_step s e hs)
      have hsplit : settledCount (runTrace s (e :: es)).2 id
          = settledCount (stepAdapter s e).2 id
            + settledCount (runTrace (stepAdapter s e).1 es).2 id := by
        simp [runTrace, settledCount, List.countP_append]
      have hfin : (runTrace s (e :: es)).1 = (runTrace (stepAdapter s e).1 es).1 := by
        simp [runTrace]
      have hdisp : dispatchCount s (e :: es) id
          = allocOf s e id + dispatchCount (stepAdapter s e).1 es id := rfl
      rw [hsplit, hfin, hdisp]
      omega

theorem pend_add_dispatch_le_one (s : AdapterState) (es : List Event) (id : Nat)
    (hs : Inv s) : pendCount s id + dispatchCount s es id ≤ 1 := by
  by_cases hm : id ∈ s.pending
  · have hz := dispatchCount_eq_zero_of_lt es s id (hs.2 _ hm)
    simp [pendCount, hm, hz]
  · have := dispatchCount_le_one es s id
    simp [pendCount, hm]
    omega

/-- C1: for every remote command dispatched through sendCommand, exactly one
terminal outcome occurs — the settlements of any event trace plus a still
pending entry account exactly for the dispatches (conservation), a command
is never settled twice, a handleResult carrying an unknown step id is a
no-op, and a handleResult settling a known step id removes the pending
entry at that very moment. -/
theorem dispatched_commands_settle_exactly_once
    (s : AdapterState) (es : List Event) (id : Nat) (ok : Bool) (hs : Inv s) :
    (settledCount (runTrace s es).2 id + pendCount (runTrace s es).1 id
        = pendCount s id + dispatchCount s es id)
    ∧ settledCount (runTrace s es).2 id ≤ 1
    ∧ (id ∉ s.pending → stepAdapter s (.result id ok) = (s, []))
    ∧ (id ∈ s.pending →
        (stepAdapter s (.result id ok)).1.pending = s.pending.erase id
          ∧ id ∉ (stepAdapter s (.result id ok)).1.pending) := by
  have hcons := settle_conservation es s id hs
  refine ⟨hcons, ?_, ?_, ?_⟩
  · have := pend_add_dispatch_le_one s es id hs
    omega
  · intro hnm
    simp [stepAdapter, hnm]
  · intro hm
    refine ⟨by simp [stepAdapter, hm], ?_⟩
    simp only [stepAdapter, if_pos hm]
    exact hs.1.not_mem_erase

/-- Witness for C1 at a concrete state and trace. -/
theorem dispatched_commands_settle_exactly_once_witness :
    Inv { activeStream := true, pending := [0], stepCounter := 1 }
      ∧ ((settledCount
            (runTrace { activeStream := true, pending := [0], stepCounter := 1 }
              [.result 0 true]).2 0
          + pendCount
              (runTrace { activeStream := true, pending := [0], stepCounter := 1 }
                [.result 0 true]).1 0
          = pendCount { activeStream := true, pending := [0], stepCounter := 1 } 0
            + dispatchCount { activeStream := true, pending := [0], stepCounter := 1 }
                [.result 0 true] 0)
        ∧ settledCount
            (runTrace { activeStream := true, pending := [0], stepCounter := 1 }
              [.result 0 true]).2 0 ≤ 1
        ∧ (0 ∉ ({ activeStream := true, pending := [0], stepCounter := 1 } :
              AdapterState).pending →
            stepAdapter { activeStream := true, pending := [0], stepCounter := 1 }
              (.result 0 true)
              = ({ activeStream := true, pending := [0], stepCounter := 1 }, []))
        ∧ (0 ∈ ({ activeStream := true, pending := [0], stepCounter := 1 } :
              AdapterState).pending →
            (stepAdapter { activeStream := true, pending := [0], stepCounter := 1 }
              (.result 0 true)).1.pending
              = ({ activeStream := true, pending := [0], stepCounter := 1 } :
                  AdapterState).pending.erase 0
              ∧ 0 ∉ (stepAdapter { activeStream := true, pending := [0], stepCounter := 1 }
                  (.result 0 true)).1.pending)) :=
  ⟨⟨by decide, by decide⟩,
    dispatched_commands_settle_exactly_once
      { activeStream := true, pending := [0], stepCounter := 1 } [.result 0 true] 0 true
      ⟨by decide, by decide⟩⟩

/-- C3: when no transport is attached, every dispatching operation of the
hybrid adapter — getPage with a url, captureScreenshot, getSimplifiedDOM,
executeAction — fails immediately with the connectivity error and leaves
the state unchanged: no pending entry is created and no timeout timer is
registered, so no timeout delay can be incurred. -/
theorem no_transport_fails_immediately
    (s : AdapterState) (sessionId u : String) (a : BrowserAction)
    (h : s.activeStream = false) :
    getPage s sessionId (some u) = (s, .error connectivityError)
    ∧ captureScreenshot s sessionId = (s, .error connectivityError)
    ∧ getSimplifiedDOM s sessionId = (s, .error connectivityError)
    ∧ executeAction s sessionId a = (s, .error connectivityError) := by
  refine ⟨?_, ?_, ?_, ?_⟩ <;>
    simp [getPage, captureScreenshot, getSimplifiedDOM, executeAction, sendCommandM, h,
      Except.map]

/-- Witness for C3 at a concrete disconnected state. -/
theorem no_transport_fails_immediately_witness :
    ({ activeStream := false, pending := [], stepCounter := 0 } :
        AdapterState).activeStream = false
    ∧ (getPage { activeStream := false, pending := [], stepCounter := 0 } "sess"
          (some "http://example.test")
        = ({ activeStream := false, pending := [], stepCounter := 0 }, .error connectivityError)
      ∧ captureScreenshot { activeStream := false, pending := [], stepCounter := 0 } "sess"
        = ({ activeStream := false, pending := [], stepCounter := 0 }, .error connectivityError)
      ∧ getSimplifiedDOM { activeStream := false, pending := [], stepCounter := 0 } "sess"
        = ({ activeStream := false, pending := [], stepCounter := 0 }, .error connectivityError)
      ∧ executeAction { activeStream := false, pending := [], stepCounter := 0 } "sess"
          { action := "click", x := some 100, y := some 200 }
        = ({ activeStream := false, pending := [], stepCounter := 0 },
            .error connectivityError)) :=
  ⟨rfl,
    no_transport_fails_immediately
      { activeStream := false, pending := [], stepCounter := 0 } "sess" "http://example.test"
      { action := "click", x := some 100, y := some 200 } rfl⟩

end Hybrid

namespace Browser

/-- The observable state of a Puppeteer page held by a BrowserSession.
closed models page.isClosed(); urlThrows models page.url() throwing on a
gone target; evalThrows and shotThrows model page.evaluate and
page.screenshot throwing (dead target); actionDetaches models the detached
frame / target closed errors caught inside executeAction; domContent and
shotContent are the values the underlying capability provider would
produce. -/
structure PageModel where
  handleId : Nat
  url : String
  closed : Bool
  urlThrows : Bool
  evalThrows : Bool
  shotThrows : Bool
  actionDetaches : Bool
  domContent : String
  shotContent : String
deriving DecidableEq, Repr

/-- BrowserSession: an owned browser+page pair with the buffered console
errors, last-activity timestamp and the headless mode it was launched in. -/
structure BrowserSession where
  page : PageModel
  consoleErrors : List String
  lastActivity : Nat
  headless : Bool
deriving DecidableEq, Repr

/-- Environment facts read by the manager: whether the process runs on
Linux with no DISPLAY available. -/
structure BMEnv where
  missingDisplayOnLinux : Bool
deriving DecidableEq, Repr

/-- BrowserManager state: the session map keyed by session id, the number
of puppeteer.launch calls performed (to observe relaunches), the fresh
handle-id supply, and the log of page.goto navigations performed. -/
structure BMState where
  sessions : String → Option BrowserSession
  launchCount : Nat
  nextHandleId : Nat
  navLog : List (String × String)

/-- Point update of the session map. -/
def mapSet (m : String → Option BrowserSession) (k : String)
    (v : Option BrowserSession) : String → Option BrowserSession :=
  fun k2 => if k2 = k then v else m k2

/-- BrowserManager.resolveHeadlessMode: headful falls back to headless when
no display surface is available on Linux. -/
def resolveHeadlessMode (env : BMEnv) (requestedHeadless : Bool) : Bool :=
  if !requestedHeadless && env.missingDisplayOnLinux then true else requestedHeadless

/-- JS truthiness of an optional url string (undefined and the empty
string are falsy). -/
def strTruthy : Option String → Bool
  | some u => u ≠ ""
  | none => false

/-- The page produced by a fresh browser launch, after the initial goto to
the target url when one is given (launch and goto are modelled as
succeeding; their failure paths throw and are outside the claims proved
here). -/
def freshPage (s : BMState) (targetUrl : Option String) : PageModel :=
  { handleId := s.nextHandleId
  , url := if strTruthy targetUrl then targetUrl.getD "about:blank" else "about:blank"
  , closed := false, urlThrows := false, evalThrows := false, shotThrows := false
  , actionDetaches := false, domContent := "", shotContent := "" }

/-- BrowserManager.getPage: resolves the effective headless mode; if the
session exists with a different headless mode, captures its current url
(unless blank or unreadable), closes and deletes it; if the remaining
session is stale (page closed or url() throwing), closes and deletes it;
a surviving session gets its lastActivity refreshed and is navigated only
when a truthy url differing from the current one was requested; otherwise
a new browser is launched, navigated to the requested or captured url, and
stored as the single session for this id. -/
def getPage (env : BMEnv) (now : Nat) (s : BMState) (sessionId : String)
    (url : Option String) (headless : Bool) : PageModel × BMState :=
  let effectiveHeadless := resolveHeadlessMode env headless
  let restart : Option BrowserSession × Option String × BMState :=
    match s.sessions sessionId with
    | some sess =>
        if sess.headless ≠ effectiveHeadless then
          let captured :=
            if sess.page.urlThrows then none
            else if sess.page.url = "about:blank" then none
            else some sess.page.url
          (none, captured, { s with sessions := mapSet s.sessions sessionId none })
        else (some sess, none, s)
    | none => (none, none, s)
  let capturedUrl := restart.2.1
  let alive : Option BrowserSession × BMState :=
    match restart.1 with
    | some sess =>
        if sess.page.closed || sess.page.urlThrows then
          (none, { restart.2.2 with sessions := mapSet restart.2.2.sessions sessionId none })
        else (some sess, restart.2.2)
    | none => (none, restart.2.2)
  match alive.1 with
  | some sess =>
      let sessTouched := { sess with lastActivity := now }
      match url with
      | some u =>
          if u ≠ "" ∧ u ≠ sess.page.url then
            let page2 := { sess.page with url := u }
            (page2,
              { alive.2 with
                  sessions := mapSet alive.2.sessions sessionId
                    (some { sessTouched with page := page2 })
                  navLog := (sessionId, u) :: alive.2.navLog })
          else
            (sess.page,
              { alive.2 with sessions := mapSet alive.2.sessions sessionId (some sessTouched) })
      | none =>
          (sess.page,
            { alive.2 with sessions := mapSet alive.2.sessions sessionId (some sessTouched) })
  | none =>
      let s2 := alive.2
      let targetUrl := if strTruthy url then url else capturedUrl
      let page := freshPage s2 targetUrl
      let newSession : BrowserSession :=
        { page := page, consoleErrors := [], lastActivity := now
        , headless := effectiveHeadless }
      (page,
        { sessions := mapSet s2.sessions sessionId (some newSession)
        , launchCount := s2.launchCount + 1
        , nextHandleId := s2.nextHandleId + 1
        , navLog :=
            if strTruthy targetUrl then
              (sessionId, targetUrl.getD "") :: s2.navLog
            else s2.navLog })

/-- BrowserManager.hasSession. -/
def hasSession (s : BMState) (sessionId : String) : Bool :=
  (s.sessions sessionId).isSome

/-- BrowserManager.getConsoleErrors: returns a copy of the buffered errors
and clears the buffer; a missing session yields the empty list.  There is
no closed or dead-handle check here. -/
def getConsoleErrors (s : BMState) (sessionId : String) : List String × BMState :=
  match s.sessions sessionId with
  | none => ([], s)
  | some sess =>
      let cleared := { sess with consoleErrors := ([] : List String) }
      (sess.consoleErrors,
        { s with sessions := mapSet s.sessions sessionId (some cleared) })

/-- BrowserManager.getSimplifiedDOM: missing session yields the empty
string; a closed page or a throwing evaluate evicts the session entry and
yields the empty string; otherwise the DOM summary the page produces. -/
def getSimplifiedDOM (s : BMState) (sessionId : String) : String × BMState :=
  match s.sessions sessionId with
  | none => ("", s)
  | some sess =>
      if sess.page.closed then
        ("", { s with sessions := mapSet s.sessions sessionId none })
      else if sess.page.evalThrows then
        ("", { s with sessions := mapSet s.sessions sessionId none })
      else (sess.page.domContent, s)

/-- BrowserManager.captureScreenshot: missing session yields null; a closed
page or a throwing screenshot evicts the session entry and yields null;
otherwise the base64 data plus file path, refreshing lastActivity.
Directory creation and file writing are filesystem effects outside the
state modelled here. -/
def captureScreenshot (now : Nat) (s : BMState)
    (sessionId outputDir stepLabel : String) :
    Option (String × String) × BMState :=
  match s.sessions sessionId with
  | none => (none, s)
  | some sess =>
      if sess.page.closed then
        (none, { s with sessions := mapSet s.sessions sessionId none })
      else if sess.page.shotThrows then
        (none, { s with sessions := mapSet s.sessions sessionId none })
      else
        let touched := { sess with lastActivity := now }
        (some (sess.page.shotContent, outputDir ++ "/" ++ stepLabel ++ ".jpg"),
          { s with sessions := mapSet s.sessions sessionId (some touched) })

/-- Error raised by executeAction on a closed session. -/
def sessionClosedError : String :=
  "Browser session was closed. Please start a new session or navigate to a URL."

/-- Error raised by executeAction when the page target detached. -/
def sessionLostError : String :=
  "Browser session lost (detached frame). Please navigate to a URL to restart."

/-- BrowserManager.executeAction: lazily initializes the session through
getPage only for a navigate action carrying a truthy url; with no session
it returns silently; a closed page is evicted and raises the
session-closed error; a detached target is caught, evicted and raises the
session-lost error; navigate performs a goto; click, type and scroll drive
the capability provider without changing the manager state. -/
def executeAction (env : BMEnv) (now : Nat) (s : BMState) (sessionId : String)
    (a : BrowserAction) (headless : Bool) : BMState × Except String Unit :=
  let lazy : Option BrowserSession × BMState :=
    if (s.sessions sessionId).isNone ∧ a.action = "navigate" ∧ strTruthy a.url then
      let r := getPage env now s sessionId a.url headless
      (r.2.sessions sessionId, r.2)
    else (s.sessions sessionId, s)
  match lazy.1 with
  | none => (lazy.2, .ok ())
  | some sess =>
      let touched := { sess with lastActivity := now }
      let s1 := { lazy.2 with sessions := mapSet lazy.2.sessions sessionId (some touched) }
      if sess.page.closed then
        ({ s1 with sessions := mapSet s1.sessions sessionId none },
          .error sessionClosedError)
      else if sess.page.actionDetaches then
        ({ s1 with sessions := mapSet s1.sessions sessionId none },
          .error sessionLostError)
      else
        match a.action with
        | "navigate" =>
            match a.url with
            | some u =>
                if u ≠ "" then
                  let page2 := { sess.page with url := u }
                  ({ s1 with
                      sessions := mapSet s1.sessions sessionId
                        (some { sess with lastActivity := now, page := page2 })
                      navLog := (sessionId, u) :: s1.navLog }, .ok ())
                else (s1, .ok ())
            | none => (s1, .ok ())
        | _ => (s1, .ok ())

/-- C7: a repeated getPage for a session holding a live handle with the
same effective headless mode never relaunches the browser, returns the
existing handle, keeps exactly one session entry for that id (other ids
untouched), and navigates only when the requested url differs from the
current one. -/
theorem getPage_reuses_live_handle
    (env : BMEnv) (now : Nat) (s : BMState) (sessionId : String)
    (sess : BrowserSession) (u2 : String) (headless : Bool)
    (hfound : s.sessions sessionId = some sess)
    (hopen : sess.page.closed = false)
    (hurlok : sess.page.urlThrows = false)
    (hmode : sess.headless = resolveHeadlessMode env headless) :
    (getPage env now s sessionId (some u2) headless).2.launchCount = s.launchCount
    ∧ (getPage env now s sessionId (some u2) headless).1.handleId = sess.page.handleId
    ∧ (u2 = sess.page.url →
        (getPage env now s sessionId (some u2) headless).1 = sess.page
        ∧ (getPage env now s sessionId (some u2) headless).2.navLog = s.navLog
        ∧ (getPage env now s sessionId (some u2) headless).2.sessions sessionId
            = some { sess with lastActivity := now })
    ∧ (u2 ≠ "" → u2 ≠ sess.page.url →
        (getPage env now s sessionId (some u2) headless).2.navLog
          = (sessionId, u2) :: s.navLog)
    ∧ (∀ sid2, sid2 ≠ sessionId →
        (getPage env now s sessionId (some u2) headless).2.sessions sid2
          = s.sessions sid2) := by
  have hmode2 : ¬(sess.headless ≠ resolveHeadlessMode env headless) := by
    rw [hmode]
    simp
  refine ⟨?_, ?_, ?_, ?_, ?_⟩
  · by_cases hu : u2 ≠ "" ∧ u2 ≠ sess.page.url <;>
      simp [getPage, hfound, hmode2, hopen, hurlok, hu]
  · by_cases hu : u2 ≠ "" ∧ u2 ≠ sess.page.url <;>
      simp [getPage, hfound, hmode2, hopen, hurlok, hu]
  · intro h
    have hu : ¬(u2 ≠ "" ∧ u2 ≠ sess.page.url) := by
      rintro ⟨_, hne⟩
      exact hne h
    refine ⟨?_, ?_, ?_⟩ <;> simp [getPage, hfound, hmode2, hopen, hurlok, hu, mapSet]
  · intro h1 h2
    have hu : u2 ≠ "" ∧ u2 ≠ sess.page.url := ⟨h1, h2⟩
    simp [getPage, hfound, hmode2, hopen, hurlok, hu]
  · intro sid2 hs2
    by_cases hu : u2 ≠ "" ∧ u2 ≠ sess.page.url <;>
      simp [getPage, hfound, hmode2, hopen, hurlok, hu, mapSet, hs2]

/-- A live page fixture. -/
def livePage : PageModel :=
  { handleId := 7, url := "http://shop.test/cart", closed := false, urlThrows := false
  , evalThrows := false, shotThrows := false, actionDetaches := false
  , domContent := "[0] <a> cart link", shotContent := "imgdata" }

/-- A live session fixture holding livePage in headless mode. -/
def liveSession : BrowserSession :=
  { page := livePage, consoleErrors := [], lastActivity := 5, headless := true }

/-- A manager state holding liveSession under id s1. -/
def liveState : BMState :=
  { sessions := fun sid => if sid = "s1" then some liveSession else none
  , launchCount := 1, nextHandleId := 8, navLog := [("s1", "http://shop.test/cart")] }

/-- Witness for C7 at a concrete live session, same url, same mode. -/
theorem getPage_reuses_live_handle_witness :
    (liveState.sessions "s1" = some liveSession
      ∧ liveSession.page.closed = false
      ∧ liveSession.page.urlThrows = false
      ∧ liveSession.headless
          = resolveHeadlessMode { missingDisplayOnLinux := false } true)
    ∧ ((getPage { missingDisplayOnLinux := false } 10 liveState "s1"
          (some "http://shop.test/cart") true).2.launchCount = liveState.launchCount
      ∧ (getPage { missingDisplayOnLinux := false } 10 liveState "s1"
          (some "http://shop.test/cart") true).1.handleId = liveSession.page.handleId
      ∧ ("http://shop.test/cart" = liveSession.page.url →
          (getPage { missingDisplayOnLinux := false } 10 liveState "s1"
            (some "http://shop.test/cart") true).1 = liveSession.page
          ∧ (getPage { missingDisplayOnLinux := false } 10 liveState "s1"
              (some "http://shop.test/cart") true).2.navLog = liveState.navLog
          ∧ (getPage { missingDisplayOnLinux := false } 10 liveState "s1"
              (some "http://shop.test/cart") true).2.sessions "s1"
              = some { liveSession with lastActivity := 10 })
      ∧ ("http://shop.test/cart" ≠ "" → "http://shop.test/cart" ≠ liveSession.page.url →
          (getPage { missingDisplayOnLinux := false } 10 liveState "s1"
            (some "http://shop.test/cart") true).2.navLog
            = ("s1", "http://shop.test/cart") :: liveState.navLog)
      ∧ (∀ sid2, sid2 ≠ "s1" →
          (getPage { missingDisplayOnLinux := false } 10 liveState "s1"
            (some "http://shop.test/cart") true).2.sessions sid2
            = liveState.sessions sid2)) :=
  ⟨⟨rfl, rfl, rfl, rfl⟩,
    getPage_reuses_live_handle { missingDisplayOnLinux := false } 10 liveState "s1"
      liveSession "http://shop.test/cart" true rfl rfl rfl rfl⟩

/-- A dead page fixture: the page is closed. -/
def deadPage : PageModel :=
  { handleId := 3, url := "http://shop.test", closed := true, urlThrows := false
  , evalThrows := false, shotThrows := false, actionDetaches := false
  , domContent := "", shotContent := "" }

/-- A session holding deadPage with one buffered console error. -/
def deadSession : BrowserSession :=
  { page := deadPage, consoleErrors := ["TypeError: boom"], lastActivity := 0
  , headless := true }

/-- A manager state holding deadSession under id s1. -/
def deadState : BMState :=
  { sessions := fun sid => if sid = "s1" then some deadSession else none
  , launchCount := 1, nextHandleId := 4, navLog := [] }

/-- C9 counterexample: getConsoleErrors on a session whose page is closed
does not evict the session entry — after the call the entry is still in
the session map (only its buffer is cleared), refuting the claim that all
three observation primitives detect a dead handle and evict the entry. -/
theorem getConsoleErrors_does_not_evict_dead_session :
    deadSession.page.closed = true
    ∧ (getConsoleErrors deadState "s1").2.sessions "s1"
        = some { deadSession with consoleErrors := [] } := by
  refine ⟨rfl, ?_⟩
  simp [getConsoleErrors, deadState, mapSet]

/-- C9 amended: captureScreenshot and getSimplifiedDOM each detect a
closed or throwing (dead) handle, evict the session entry and return a
benign value (null, empty string); getConsoleErrors returns the buffered
errors without any dead-handle detection or eviction (and the empty list
when no session exists); none of the three throws. -/
theorem observation_primitives_dead_handle
    (now : Nat) (s : BMState) (sessionId outputDir stepLabel : String)
    (sess : BrowserSession)
    (hfound : s.sessions sessionId = some sess) :
    (sess.page.closed = true ∨ sess.page.shotThrows = true →
      (captureScreenshot now s sessionId outputDir stepLabel).1 = none
      ∧ (captureScreenshot now s sessionId outputDir stepLabel).2.sessions sessionId
          = none)
    ∧ (sess.page.closed = true ∨ sess.page.evalThrows = true →
      (getSimplifiedDOM s sessionId).1 = ""
      ∧ (getSimplifiedDOM s sessionId).2.sessions sessionId = none)
    ∧ (getConsoleErrors s sessionId).1 = sess.consoleErrors
    ∧ (getConsoleErrors s sessionId).2.sessions sessionId
        = some { sess with consoleErrors := [] }
    ∧ (∀ s2 : BMState, s2.sessions sessionId = none →
        getConsoleErrors s2 sessionId = ([], s2)
        ∧ captureScreenshot now s2 sessionId outputDir stepLabel = (none, s2)
        ∧ getSimplifiedDOM s2 sessionId = ("", s2)) := by
  refine ⟨?_, ?_, ?_, ?_, ?_⟩
  · rintro (h | h)
    · exact ⟨by simp [captureScreenshot, hfound, h],
        by simp [captureScreenshot, hfound, h, mapSet]⟩
    · by_cases hc : sess.page.closed = true
      · exact ⟨by simp [captureScreenshot, hfound, hc],
          by simp [captureScreenshot, hfound, hc, mapSet]⟩
      · exact ⟨by simp [captureScreenshot, hfound, hc, h],
          by simp [captureScreenshot, hfound, hc, h, mapSet]⟩
  · rintro (h | h)
    · exact ⟨by simp [getSimplifiedDOM, hfound, h],
        by simp [getSimplifiedDOM, hfound, h, mapSet]⟩
    · by_cases hc : sess.page.closed = true
      · exact ⟨by simp [getSimplifiedDOM, hfound, hc],
          by simp [getSimplifiedDOM, hfound, hc, mapSet]⟩
      · exact ⟨by simp [getSimplifiedDOM, hfound, hc, h],
          by simp [getSimplifiedDOM, hfound, hc, h, mapSet]⟩
  · simp [getConsoleErrors, hfound]
  · simp [getConsoleErrors, hfound, mapSet]
  · intro s2 h2
    exact ⟨by simp [getConsoleErrors, h2],
      by simp [captureScreenshot, h2],
      by simp [getSimplifiedDOM, h2]⟩

/-- Witness for the amended C9 at the concrete dead session. -/
theorem observation_primitives_dead_handle_witness :
    deadState.sessions "s1" = some deadSession
    ∧ ((deadSession.page.closed = true ∨ deadSession.page.shotThrows = true →
        (captureScreenshot 3 deadState "s1" "shots" "step1").1 = none
        ∧ (captureScreenshot 3 deadState "s1" "shots" "step1").2.sessions "s1" = none)
      ∧ (deadSession.page.closed = true ∨ deadSession.page.evalThrows = true →
        (getSimplifiedDOM deadState "s1").1 = ""
        ∧ (getSimplifiedDOM deadState "s1").2.sessions "s1" = none)
      ∧ (getConsoleErrors deadState "s1").1 = deadSession.consoleErrors
      ∧ (getConsoleErrors deadState "s1").2.sessions "s1"
          = some { deadSession with consoleErrors := [] }
      ∧ (∀ s2 : BMState, s2.sessions "s1" = none →
          getConsoleErrors s2 "s1" = ([], s2)
          ∧ captureScreenshot 3 s2 "s1" "shots" "step1" = (none, s2)
          ∧ getSimplifiedDOM s2 "s1" = ("", s2))) :=
  ⟨rfl, observation_primitives_dead_handle 3 deadState "s1" "shots" "step1" deadSession rfl⟩

/-- C10: executeAction for a session id with no entry in the session map:
any action other than a navigate carrying a (truthy) url returns normally
as a silent no-op leaving the state unchanged; only a navigate carrying a
url lazily creates a new session for the id before executing, and then
succeeds. -/
theorem executeAction_missing_session
    (env : BMEnv) (now : Nat) (s : BMState) (sessionId : String)
    (a : BrowserAction) (headless : Bool)
    (hmiss : s.sessions sessionId = none) :
    (¬(a.action = "navigate" ∧ strTruthy a.url = true) →
      executeAction env now s sessionId a headless = (s, .ok ()))
    ∧ (∀ u, a.action = "navigate" → a.url = some u → u ≠ "" →
        (executeAction env now s sessionId a headless).2 = .ok ()
        ∧ ((executeAction env now s sessionId a headless).1.sessions sessionId).isSome
            = true) := by
  constructor
  · intro h
    simp [executeAction, hmiss, h]
  · intro u hnav hurl hune
    have htruthy : strTruthy a.url = true := by simp [hurl, strTruthy, hune]
    constructor <;>
      simp [executeAction, getPage, freshPage, hmiss, hnav, hurl, hune, htruthy,
        strTruthy, mapSet]

/-- Witness for C10: a click on a missing session is a silent no-op, and a
navigate with a url creates the session. -/
theorem executeAction_missing_session_witness :
    (({ sessions := fun _ => none, launchCount := 0, nextHandleId := 0
        , navLog := [] } : BMState).sessions "s9" = none)
    ∧ ((¬(({ action := "click", x := some 100, y := some 200 } :
            BrowserAction).action = "navigate"
          ∧ strTruthy ({ action := "click", x := some 100, y := some 200 } :
              BrowserAction).url = true) →
        executeAction { missingDisplayOnLinux := true } 2
          { sessions := fun _ => none, launchCount := 0, nextHandleId := 0, navLog := [] }
          "s9" { action := "click", x := some 100, y := some 200 } true
          = ({ sessions := fun _ => none, launchCount := 0, nextHandleId := 0
              , navLog := [] }, .ok ()))
      ∧ (∀ u, ({ action := "click", x := some 100, y := some 200 } :
            BrowserAction).action = "navigate" →
          ({ action := "click", x := some 100, y := some 200 } :
            BrowserAction).url = some u → u ≠ "" →
          (executeAction { missingDisplayOnLinux := true } 2
            { sessions := fun _ => none, launchCount := 0, nextHandleId := 0, navLog := [] }
            "s9" { action := "click", x := some 100, y := some 200 } true).2 = .ok ()
          ∧ ((executeAction { missingDisplayOnLinux := true } 2
              { sessions := fun _ => none, launchCount := 0, nextHandleId := 0
              , navLog := [] }
              "s9" { action := "click", x := some 100, y := some 200 } true).1.sessions
                "s9").isSome = true)) :=
  ⟨rfl,
    executeAction_missing_session { missingDisplayOnLinux := true } 2
      { sessions := fun _ => none, launchCount := 0, nextHandleId := 0, navLog := [] }
      "s9" { action := "click", x := some 100, y := some 200 } true rfl⟩

end Browser

/-- JSON values as produced by JSON.parse. -/
inductive Json where
  | null
  | bool (b : Bool)
  | num (n : Int)
  | str (s : String)
  | arr (elems : List Json)
  | obj (fields : List (String × Json))

/-- The tagged union of agent actions (actions.schema ActionSchema): every
variant carries a reasoning string. -/
inductive AgentAction where
  | navigate (url reasoning : String)
  | click (x y : Int) (reasoning : String)
  | type (x y : Int) (text reasoning : String)
  | scroll (direction reasoning : String)
  | ask_human (question reasoning : String)
  | done (summary reasoning : String)
  | error (message reasoning : String)
  | use_skill (skill_name reasoning : String)
  | type_secret (key : String) (x y : Int) (reasoning : String)
  | type_test_account_secret (field : String) (x y : Int) (reasoning : String)
  | run_script (skill_name script : String) (args : List (String × Json))
      (reasoning : String)

/-- Whether an action is terminal for the loop (done, ask_human, error). -/
def AgentAction.isTerminal : AgentAction → Bool
  | .done _ _ => true
  | .ask_human _ _ => true
  | .error _ _ => true
  | _ => false

namespace Loop

/-- A transcript message; isSkillContext marks injected skill
instructions. -/
structure ChatMessage where
  role : String
  content : String
  isSkillContext : Bool := false
deriving DecidableEq, Repr

/-- A session-bound test account record. -/
structure TestAccount where
  id : String
  accountKey : String
  username : String
  password : String
deriving DecidableEq, Repr

/-- Result of executeSkillValidation. -/
structure ValidationResult where
  valid : Bool
  error : Option String := none
deriving DecidableEq, Repr

/-- Result of executeSkillScript; output is already rendered to the string
the loop embeds in the transcript (the source stringifies the raw value). -/
structure ScriptResult where
  output : String
  error : Option String := none
deriving DecidableEq, Repr

/-- External collaborators and oracles of one loop turn.  The reasoning
step and the stop-signal reads (the session status polled from storage)
are indexed by the action counter at the iteration they serve; each
non-terminal iteration increments the counter by exactly one, so the
counter identifies the iteration. -/
structure LoopEnv where
  reasonAt : Nat → AgentAction
  stopBefore : Nat → Bool
  stopAfter : Nat → Bool
  loadSkillInstructions : String → Option String
  executeSkillValidation : String → ValidationResult
  executeSkillScript : String → String → ScriptResult
  envVar : String → Option String
  activeAccount : Option TestAccount

/-- The per-turn cap on autonomous actions (MAX_ACTIONS in the handler). -/
def MAX_ACTIONS : Nat := 8

/-- Loop state: the action counter, the transcript, the active SkillContext
(instruction text and skill name), the browser actions dispatched through
the execution adapter, and the recorded calls to loadSkillInstructions and
executeSkillValidation. -/
structure LoopState where
  actionCount : Nat
  chatHistory : List ChatMessage
  activeSkillContext : Option String := none
  activeSkillName : Option String := none
  dispatched : List BrowserAction := []
  loadCalls : List String := []
  validationCalls : List String := []
deriving DecidableEq, Repr

/-- How the loop exits; terminal SSE events are carried as the payload. -/
inductive LoopExit where
  | stoppedByUser
  | skillValidationFailed (message : String)
  | finishedDone (summary : String)
  | askedHuman (question : String)
  | erroredAction (message : String)
  | budgetExhausted
deriving DecidableEq, Repr

/-- Result of one loop iteration: continue with a new state, or exit. -/
inductive IterStep where
  | next (st : LoopState)
  | exitWith (st : LoopState) (outcome : LoopExit)
deriving DecidableEq, Repr

/-- The corrective system note appended when use_skill names the already
active skill (source text, quoting removed). -/
def correctiveNote (skillName : String) : ChatMessage :=
  { role := "system"
  , content := "System: STOP! Skill " ++ skillName
      ++ " is ALREADY loaded and active. You are stuck in a loop. DO NOT call use_skill again. LOOK at the skill instructions in your context and execute the NEXT step (e.g., type_text into a field)." }

/-- The skill-instructions system message appended on a successful load. -/
def skillContextMessage (skillName instructions : String) : ChatMessage :=
  { role := "system"
  , content := "[Skill: " ++ skillName ++ "] " ++ instructions
  , isSkillContext := true }

/-- The tripwire failure message shown when skill validation fails
(source text, quoting removed). -/
def tripwireMessage (skillName : String) : Option String → String
  | some e =>
      "Skill " ++ skillName ++ " requires configuration: " ++ e
        ++ ". Please fix this to use the skill."
  | none =>
      "Skill " ++ skillName
        ++ " validation failed. The environment or state does not meet the skill strict requirements (Tripwire check)."

/-- An agent transcript entry recording an executed action. -/
def actionMessage (reasoning label : String) : ChatMessage :=
  { role := "agent", content := reasoning ++ "\nAction: " ++ label }

/-- One iteration of the agent loop (the while body of the session
handler): stop check at entry, observation capture (a read feeding the
reasoning oracle; no tracked state change), reasoning, a second stop check,
then dispatch on the validated action. -/
def loopIter (env : LoopEnv) (st : LoopState) : IterStep :=
  if env.stopBefore st.actionCount then .exitWith st .stoppedByUser
  else
    match env.reasonAt st.actionCount with
    | a =>
      if env.stopAfter st.actionCount then .exitWith st .stoppedByUser
      else
        match a with
        | .use_skill skillName _ =>
            if st.activeSkillName = some skillName then
              .next { st with
                chatHistory := st.chatHistory ++ [correctiveNote skillName]
                actionCount := st.actionCount + 1 }
            else
              let st1 := { st with loadCalls := st.loadCalls ++ [skillName] }
              match env.loadSkillInstructions skillName with
              | some instructions =>
                  let st2 :=
                    { st1 with validationCalls := st1.validationCalls ++ [skillName] }
                  let v := env.executeSkillValidation skillName
                  if v.valid then
                    .next { st2 with
                      activeSkillContext := some instructions
                      activeSkillName := some skillName
                      chatHistory := st2.chatHistory
                        ++ [skillContextMessage skillName instructions]
                      actionCount := st2.actionCount + 1 }
                  else
                    .exitWith st2
                      (.skillValidationFailed (tripwireMessage skillName v.error))
              | none =>
                  .next { st1 with actionCount := st1.actionCount + 1 }
        | .done summary _ =>
            .exitWith { st with activeSkillContext := none, activeSkillName := none }
              (.finishedDone summary)
        | .ask_human question _ => .exitWith st (.askedHuman question)
        | .error message _ => .exitWith st (.erroredAction message)
        | .run_script skillName script _ _ =>
            let r := env.executeSkillScript skillName script
            let content := "[Script Result] Output: " ++ r.output
              ++ (match r.error with | some e => " Error: " ++ e | none => "")
            .next { st with
              chatHistory := st.chatHistory ++ [{ role := "system", content := content }]
              actionCount := st.actionCount + 1 }
        | .type_secret key x y reasoning =>
            if key = "TEST_USER" ∨ key = "TEST_USER_PASSWORD" then
              .next { st with
                chatHistory := st.chatHistory ++
                  [{ role := "system"
                   , content := "Error: legacy TEST_USER env keys are disabled. Use type_test_account_secret with selected DB account." }]
                actionCount := st.actionCount + 1 }
            else
              match env.envVar key with
              | none =>
                  .next { st with
                    chatHistory := st.chatHistory ++
                      [{ role := "system"
                       , content := "Error: Environment variable " ++ key
                          ++ " is not set." }]
                    actionCount := st.actionCount + 1 }
              | some secretValue =>
                  .next { st with
                    dispatched := st.dispatched ++
                      [{ action := "type", x := some x, y := some y
                       , text := some secretValue }]
                    chatHistory := st.chatHistory ++
                      [actionMessage reasoning ("Typing secret from env." ++ key)]
                    actionCount := st.actionCount + 1 }
        | .type_test_account_secret field x y reasoning =>
            match env.activeAccount with
            | none =>
                .next { st with
                  chatHistory := st.chatHistory ++
                    [{ role := "system"
                     , content := "Error: no active test account selected." }]
                  actionCount := st.actionCount + 1 }
            | some account =>
                let secretValue :=
                  if field = "username" then account.username else account.password
                .next { st with
                  dispatched := st.dispatched ++
                    [{ action := "type", x := some x, y := some y
                     , text := some secretValue }]
                  chatHistory := st.chatHistory ++
                    [actionMessage reasoning
                      ("Typing test account " ++ field ++ " from selected account "
                        ++ account.accountKey)]
                  actionCount := st.actionCount + 1 }
        | .navigate url reasoning =>
            .next { st with
              dispatched := st.dispatched ++ [{ action := "navigate", url := some url }]
              chatHistory := st.chatHistory ++
                [actionMessage reasoning ("Navigating to " ++ url)]
              actionCount := st.actionCount + 1 }
        | .click x y reasoning =>
            .next { st with
              dispatched := st.dispatched ++
                [{ action := "click", x := some x, y := some y }]
              chatHistory := st.chatHistory ++
                [actionMessage reasoning
                  ("Clicking at (" ++ toString x ++ ", " ++ toString y ++ ")")]
              actionCount := st.actionCount + 1 }
        | .type x y text reasoning =>
            .next { st with
              dispatched := st.dispatched ++
                [{ action := "type", x := some x, y := some y, text := some text }]
              chatHistory := st.chatHistory ++
                [actionMessage reasoning ("Typing " ++ text)]
              actionCount := st.actionCount + 1 }
        | .scroll direction reasoning =>
            .next { st with
              dispatched := st.dispatched ++
                [{ action := "scroll", direction := some direction }]
              chatHistory := st.chatHistory ++
                [actionMessage reasoning ("Scrolling " ++ direction)]
              actionCount := st.actionCount + 1 }

/-- The while loop, by remaining budget: fuel is MAX_ACTIONS minus the
action counter, so fuel 0 is exactly the failed while condition, exiting
with the budget exhausted. -/
def runLoop (env : LoopEnv) : Nat → LoopState → LoopState × LoopExit
  | 0, st => (st, .budgetExhausted)
  | fuel + 1, st =>
      match loopIter env st with
      | .next st2 => runLoop env fuel st2
      | .exitWith st2 outcome => (st2, outcome)

/-- Initial loop state of a turn. -/
def initialLoopState (history : List ChatMessage) : LoopState :=
  { actionCount := 0, chatHistory := history }

/-- One full turn: the loop from a fresh counter with budget MAX_ACTIONS. -/
def runAgentLoop (env : LoopEnv) (history : List ChatMessage) :
    LoopState × LoopExit :=
  runLoop env MAX_ACTIONS (initialLoopState history)

/-- An action never triggers a tripwire failure under this environment:
any skill it names either has no instructions or validates. -/
def TripwireSafe (env : LoopEnv) (a : AgentAction) : Prop :=
  ∀ skillName r, a = .use_skill skillName r →
    env.loadSkillInstructions skillName = none
    ∨ (env.executeSkillValidation skillName).valid = true

/-- Whether an iteration result continues the loop. -/
def IterStep.isNext : IterStep → Bool
  | .next _ => true
  | .exitWith _ _ => false

/-- The state an iteration result carries. -/
def IterStep.stateOf : IterStep → LoopState
  | .next st => st
  | .exitWith st _ => st

theorem loopIter_nonterminal_next (env : LoopEnv) (st : LoopState)
    (hsb : env.stopBefore st.actionCount = false)
    (hsa : env.stopAfter st.actionCount = false)
    (hterm : (env.reasonAt st.actionCount).isTerminal = false)
    (hsafe : TripwireSafe env (env.reasonAt st.actionCount)) :
    (loopIter env st).isNext = true
    ∧ (loopIter env st).stateOf.actionCount = st.actionCount + 1 := by
  unfold loopIter
  rw [hsb, hsa]
  simp only [Bool.false_eq_true, if_false]
  cases ha : env.reasonAt st.actionCount with
  | done s r => rw [ha] at hterm; simp [AgentAction.isTerminal] at hterm
  | ask_human q r => rw [ha] at hterm; simp [AgentAction.isTerminal] at hterm
  | error m r => rw [ha] at hterm; simp [AgentAction.isTerminal] at hterm
  | use_skill skillName r =>
      rw [ha] at hsafe
      by_cases hactive : st.activeSkillName = some skillName
      · simp [hactive, IterStep.isNext, IterStep.stateOf]
      · rcases hsafe skillName r rfl with hload | hvalid
        · simp [hactive, hload, IterStep.isNext, IterStep.stateOf]
        · cases hload : env.loadSkillInstructions skillName with
          | none => simp [hactive, hload, IterStep.isNext, IterStep.stateOf]
          | some instructions =>
              simp [hactive, hload, hvalid, IterStep.isNext, IterStep.stateOf]
  | run_script skillName script args r => simp [IterStep.isNext, IterStep.stateOf]
  | type_secret key x y r =>
      by_cases hkey : key = "TEST_USER" ∨ key = "TEST_USER_PASSWORD"
      · simp [hkey, IterStep.isNext, IterStep.stateOf]
      · cases henv : env.envVar key with
        | none => simp [hkey, henv, IterStep.isNext, IterStep.stateOf]
        | some v => simp [hkey, henv, IterStep.isNext, IterStep.stateOf]
  | type_test_account_secret field x y r =>
      cases hacc : env.activeAccount with
      | none => simp [hacc, IterStep.isNext, IterStep.stateOf]
      | some account => simp [hacc, IterStep.isNext, IterStep.stateOf]
  | navigate url r => simp [IterStep.isNext, IterStep.stateOf]
  | click x y r => simp [IterStep.isNext, IterStep.stateOf]
  | type x y text r => simp [IterStep.isNext, IterStep.stateOf]
  | scroll direction r => simp [IterStep.isNext, IterStep.stateOf]

theorem loopIter_next_exists (env : LoopEnv) (st : LoopState)
    (hsb : env.stopBefore st.actionCount = false)
    (hsa : env.stopAfter st.actionCount = false)
    (hterm : (env.reasonAt st.actionCount).isTerminal = false)
    (hsafe : TripwireSafe env (env.reasonAt st.actionCount)) :
    ∃ st2, loopIter env st = .next st2 ∧ st2.actionCount = st.actionCount + 1 := by
  obtain ⟨h1, h2⟩ := loopIter_nonterminal_next env st hsb hsa hterm hsafe
  cases h : loopIter env st with
  | next st2 =>
      rw [h] at h2
      exact ⟨st2, rfl, h2⟩
  | exitWith st2 o =>
      rw [h] at h1
      simp [IterStep.isNext] at h1

theorem runLoop_exhausts_budget (env : LoopEnv)
    (hsb : ∀ i, env.stopBefore i = false)
    (hsa : ∀ i, env.stopAfter i = false)
    (hterm : ∀ i, (env.reasonAt i).isTerminal = false)
    (hsafe : ∀ i, TripwireSafe env (env.reasonAt i)) :
    ∀ (fuel : Nat) (st : LoopState),
      (runLoop env fuel st).2 = .budgetExhausted
      ∧ (runLoop env fuel st).1.actionCount = st.actionCount + fuel := by
  intro fuel
  induction fuel with
  | zero => intro st; exact ⟨rfl, rfl⟩
  | succ n ih =>
      intro st
      obtain ⟨st2, hstep, hcount⟩ :=
        loopIter_next_exists env st (hsb _) (hsa _) (hterm _) (hsafe _)
      have : runLoop env (n + 1) st = runLoop env n st2 := by
        simp [runLoop, hstep]
      rw [this]
      obtain ⟨h1, h2⟩ := ih st2
      refine ⟨h1, ?_⟩
      rw [h2, hcount]
      omega

/-- C2: with a reasoning step that never returns a terminal action, never
triggers a tripwire failure, and no stop signal ever set, a full turn
performs exactly MAX_ACTIONS (8) iterations — every continuing iteration,
use_skill and run_script included, increments the action counter by one —
and exits with the budget exhausted. -/
theorem loop_stops_at_max_actions (env : LoopEnv) (history : List ChatMessage)
    (hsb : ∀ i, env.stopBefore i = false)
    (hsa : ∀ i, env.stopAfter i = false)
    (hterm : ∀ i, (env.reasonAt i).isTerminal = false)
    (hsafe : ∀ i, TripwireSafe env (env.reasonAt i)) :
    (runAgentLoop env history).2 = .budgetExhausted
    ∧ (runAgentLoop env history).1.actionCount = MAX_ACTIONS
    ∧ MAX_ACTIONS = 8
    ∧ ∀ st : LoopState, ∃ st2,
        loopIter env st = .next st2 ∧ st2.actionCount = st.actionCount + 1 := by
  obtain ⟨h1, h2⟩ :=
    runLoop_exhausts_budget env hsb hsa hterm hsafe MAX_ACTIONS (initialLoopState history)
  refine ⟨h1, ?_, rfl, ?_⟩
  · rw [runAgentLoop] at *
    rw [h2]
    rfl
  · intro st
    exact loopIter_next_exists env st (hsb _) (hsa _) (hterm _) (hsafe _)

/-- An environment whose reasoning stub always asks to navigate. -/
def stubEnv : LoopEnv :=
  { reasonAt := fun _ => .navigate "http://shop.test" "explore"
  , stopBefore := fun _ => false
  , stopAfter := fun _ => false
  , loadSkillInstructions := fun _ => none
  , executeSkillValidation := fun _ => { valid := true }
  , executeSkillScript := fun _ _ => { output := "null" }
  , envVar := fun _ => none
  , activeAccount := none }

/-- Witness for C2 with the concrete navigate-forever stub. -/
theorem loop_stops_at_max_actions_witness :
    ((∀ i, stubEnv.stopBefore i = false)
      ∧ (∀ i, stubEnv.stopAfter i = false)
      ∧ (∀ i, (stubEnv.reasonAt i).isTerminal = false)
      ∧ (∀ i, TripwireSafe stubEnv (stubEnv.reasonAt i)))
    ∧ ((runAgentLoop stubEnv []).2 = .budgetExhausted
      ∧ (runAgentLoop stubEnv []).1.actionCount = MAX_ACTIONS
      ∧ MAX_ACTIONS = 8
      ∧ ∀ st : LoopState, ∃ st2,
          loopIter stubEnv st = .next st2 ∧ st2.actionCount = st.actionCount + 1) :=
  ⟨⟨fun _ => rfl, fun _ => rfl, fun _ => rfl,
      fun _ _ _ h => by simp [stubEnv] at h⟩,
    loop_stops_at_max_actions stubEnv [] (fun _ => rfl) (fun _ => rfl) (fun _ => rfl)
      (fun _ _ _ h => by simp [stubEnv] at h)⟩

/-- C4: when the named skill is already the active SkillContext, a
use_skill action appends the corrective system note to the transcript and
continues the loop, incrementing the action counter by one; the record
update shows everything else — the active SkillContext, the dispatched
actions, and the loadSkillInstructions and executeSkillValidation call
logs — unchanged, so the skill is not reloaded and not revalidated. -/
theorem use_skill_already_active_loop_breaker (env : LoopEnv) (st : LoopState)
    (skillName r : String)
    (hsb : env.stopBefore st.actionCount = false)
    (hsa : env.stopAfter st.actionCount = false)
    (hreason : env.reasonAt st.actionCount = .use_skill skillName r)
    (hactive : st.activeSkillName = some skillName) :
    loopIter env st = .next { st with
      chatHistory := st.chatHistory ++ [correctiveNote skillName]
      actionCount := st.actionCount + 1 } := by
  unfold loopIter
  rw [hsb, hsa, hreason]
  simp [hactive]

/-- A loop state in which the standard-login skill is active. -/
def activeSkillState : LoopState :=
  { actionCount := 3
  , chatHistory := [skillContextMessage "standard-login" "fill the form"]
  , activeSkillContext := some "fill the form"
  , activeSkillName := some "standard-login" }

/-- An environment whose reasoning stub asks for the already active skill. -/
def repeatSkillEnv : LoopEnv :=
  { stubEnv with reasonAt := fun _ => .use_skill "standard-login" "login needed" }

/-- Witness for C4 at the concrete repeated use_skill request. -/
theorem use_skill_already_active_loop_breaker_witness :
    (repeatSkillEnv.stopBefore activeSkillState.actionCount = false
      ∧ repeatSkillEnv.stopAfter activeSkillState.actionCount = false
      ∧ repeatSkillEnv.reasonAt activeSkillState.actionCount
          = .use_skill "standard-login" "login needed"
      ∧ activeSkillState.activeSkillName = some "standard-login")
    ∧ loopIter repeatSkillEnv activeSkillState = .next { activeSkillState with
        chatHistory := activeSkillState.chatHistory ++ [correctiveNote "standard-login"]
        actionCount := activeSkillState.actionCount + 1 } :=
  ⟨⟨rfl, rfl, rfl, rfl⟩,
    use_skill_already_active_loop_breaker repeatSkillEnv activeSkillState
      "standard-login" "login needed" rfl rfl rfl rfl⟩

/-- C5: a use_skill action naming a loadable skill whose tripwire
validation fails makes the loop exit in the validation-failed error state
carrying the validation reason; the exit state differs from the entry
state only in the recorded load and validation calls — no browser action
is dispatched, the active SkillContext is unchanged (the skill is not
activated) and its instructions are not added to the transcript. -/
theorem tripwire_failure_aborts_without_side_effects (env : LoopEnv)
    (st : LoopState) (skillName r instructions : String)
    (hsb : env.stopBefore st.actionCount = false)
    (hsa : env.stopAfter st.actionCount = false)
    (hreason : env.reasonAt st.actionCount = .use_skill skillName r)
    (hactive : st.activeSkillName ≠ some skillName)
    (hload : env.loadSkillInstructions skillName = some instructions)
    (hinvalid : (env.executeSkillValidation skillName).valid = false) :
    loopIter env st = .exitWith { st with
        loadCalls := st.loadCalls ++ [skillName]
        validationCalls := st.validationCalls ++ [skillName] }
      (.skillValidationFailed
        (tripwireMessage skillName (env.executeSkillValidation skillName).error))
    ∧ ∀ fuel, runLoop env (fuel + 1) st
        = ({ st with
              loadCalls := st.loadCalls ++ [skillName]
              validationCalls := st.validationCalls ++ [skillName] },
            .skillValidationFailed
              (tripwireMessage skillName (env.executeSkillValidation skillName).error)) := by
  have hiter : loopIter env st = .exitWith { st with
      loadCalls := st.loadCalls ++ [skillName]
      validationCalls := st.validationCalls ++ [skillName] }
    (.skillValidationFailed
      (tripwireMessage skillName (env.executeSkillValidation skillName).error)) := by
    unfold loopIter
    rw [hsb, hsa, hreason]
    simp [hactive, hload, hinvalid]
  refine ⟨hiter, ?_⟩
  intro fuel
  simp [runLoop, hiter]

/-- An environment whose skill loads but fails its tripwire validation. -/
def failingTripwireEnv : LoopEnv :=
  { stubEnv with
    reasonAt := fun _ => .use_skill "standard-login" "login needed"
    loadSkillInstructions := fun name =>
      if name = "standard-login" then some "fill the form" else none
    executeSkillValidation := fun _ =>
      { valid := false, error := some "No test accounts found in database" } }

/-- A fresh loop state with no active skill. -/
def freshState : LoopState := { actionCount := 0, chatHistory := [] }

/-- Witness for C5 at the concrete failing validation. -/
theorem tripwire_failure_aborts_without_side_effects_witness :
    (failingTripwireEnv.stopBefore freshState.actionCount = false
      ∧ failingTripwireEnv.stopAfter freshState.actionCount = false
      ∧ failingTripwireEnv.reasonAt freshState.actionCount
          = .use_skill "standard-login" "login needed"
      ∧ freshState.activeSkillName ≠ some "standard-login"
      ∧ failingTripwireEnv.loadSkillInstructions "standard-login" = some "fill the form"
      ∧ (failingTripwireEnv.executeSkillValidation "standard-login").valid = false)
    ∧ (loopIter failingTripwireEnv freshState = .exitWith { freshState with
          loadCalls := freshState.loadCalls ++ ["standard-login"]
          validationCalls := freshState.validationCalls ++ ["standard-login"] }
        (.skillValidationFailed
          (tripwireMessage "standard-login"
            (failingTripwireEnv.executeSkillValidation "standard-login").error))
      ∧ ∀ fuel, runLoop failingTripwireEnv (fuel + 1) freshState
          = ({ freshState with
                loadCalls := freshState.loadCalls ++ ["standard-login"]
                validationCalls := freshState.validationCalls ++ ["standard-login"] },
              .skillValidationFailed
                (tripwireMessage "standard-login"
                  (failingTripwireEnv.executeSkillValidation "standard-login").error))) :=
  ⟨⟨rfl, rfl, rfl, by simp [freshState], rfl, rfl⟩,
    tripwire_failure_aborts_without_side_effects failingTripwireEnv freshState
      "standard-login" "login needed" "fill the form" rfl rfl rfl
      (by simp [freshState]) rfl rfl⟩

/-- An environment whose reasoning stub always asks the human. -/
def askHumanEnv : LoopEnv :=
  { stubEnv with reasonAt := fun _ => .ask_human "Which account should I use?" "need input" }

/-- C8 counterexample: on the terminal ask_human action the loop exits
without clearing the active SkillContext — the exit state still carries
the active skill name and instructions, refuting the claim that every
terminal action (done, ask_human, or error) clears the SkillContext. -/
theorem ask_human_exit_keeps_skill_context :
    loopIter askHumanEnv activeSkillState
      = .exitWith activeSkillState (.askedHuman "Which account should I use?")
    ∧ activeSkillState.activeSkillName = some "standard-login"
    ∧ activeSkillState.activeSkillContext = some "fill the form" := ⟨rfl, rfl, rfl⟩

/-- C8 amended: the done action clears the active SkillContext before the
loop exits; the ask_human and error terminal actions exit the loop with
the SkillContext left exactly as it was. -/
theorem terminal_actions_and_skill_context (env : LoopEnv) (st : LoopState)
    (hsb : env.stopBefore st.actionCount = false)
    (hsa : env.stopAfter st.actionCount = false) :
    (∀ s r, env.reasonAt st.actionCount = .done s r →
      loopIter env st
        = .exitWith { st with activeSkillContext := none, activeSkillName := none }
            (.finishedDone s))
    ∧ (∀ q r, env.reasonAt st.actionCount = .ask_human q r →
      loopIter env st = .exitWith st (.askedHuman q))
    ∧ (∀ m r, env.reasonAt st.actionCount = .error m r →
      loopIter env st = .exitWith st (.erroredAction m)) := by
  refine ⟨?_, ?_, ?_⟩ <;> intro a r hreason <;>
    · unfold loopIter
      rw [hsb, hsa, hreason]
      simp

/-- An environment whose reasoning stub always reports done. -/
def doneEnv : LoopEnv :=
  { stubEnv with reasonAt := fun _ => .done "Checkout flow verified" "all steps passed" }

/-- Witness for the amended C8: done at the concrete active-skill state
clears the SkillContext. -/
theorem terminal_actions_and_skill_context_witness :
    (doneEnv.stopBefore activeSkillState.actionCount = false
      ∧ doneEnv.stopAfter activeSkillState.actionCount = false
      ∧ doneEnv.reasonAt activeSkillState.actionCount
          = .done "Checkout flow verified" "all steps passed")
    ∧ loopIter doneEnv activeSkillState
        = .exitWith { activeSkillState with
            activeSkillContext := none, activeSkillName := none }
          (.finishedDone "Checkout flow verified") :=
  ⟨⟨rfl, rfl, rfl⟩,
    (terminal_actions_and_skill_context doneEnv activeSkillState rfl rfl).1
      "Checkout flow verified" "all steps passed" rfl⟩

end Loop

namespace Schema

/-- Field lookup in a parsed JSON object (JSON.parse keeps one binding per
key, so keys are unique). -/
def jGet : List (String × Json) → String → Option Json
  | [], _ => none
  | (k, v) :: rest, key => if k = key then some v else jGet rest key

/-- Property assignment: replaces the existing binding or appends one. -/
def jSet : List (String × Json) → String → Json → List (String × Json)
  | [], key, v => [(key, v)]
  | (k, w) :: rest, key, v =>
      if k = key then (k, v) :: rest else (k, w) :: jSet rest key v

/-- Property deletion. -/
def jDel : List (String × Json) → String → List (String × Json)
  | [], _ => []
  | (k, w) :: rest, key =>
      if k = key then jDel rest key else (k, w) :: jDel rest key

/-- JS truthiness of a property lookup: undefined, null, false, 0 and the
empty string are falsy; everything else is truthy. -/
def truthy : Option Json → Bool
  | none => false
  | some .null => false
  | some (.bool b) => b
  | some (.num n) => n != 0
  | some (.str s) => s != ""
  | some (.arr _) => true
  | some (.obj _) => true

/-- Strict equality of a property with a given string (the JS triple
equals against a string literal). -/
def isStr (o : Option Json) (s : String) : Bool :=
  match o with
  | some (.str t) => t = s
  | _ => false

/-- The placeholder reasoning inserted by the parser. -/
def autofillReasoning : String := "Model omitted reasoning; auto-filled by parser."

/-- First normalization fix: a type_secret payload using text instead of
key is rewritten to use key, deleting text. -/
def fixTypeSecretKey (fields : List (String × Json)) : List (String × Json) :=
  if isStr (jGet fields "action") "type_secret"
      ∧ truthy (jGet fields "key") = false
      ∧ truthy (jGet fields "text") = true then
    match jGet fields "text" with
    | some t => jDel (jSet fields "key" t) "text"
    | none => fields
  else fields

/-- Second normalization fix: a payload with a truthy action but no
reasoning gets the placeholder reasoning. -/
def fixMissingReasoning (fields : List (String × Json)) : List (String × Json) :=
  if truthy (jGet fields "action") = true ∧ truthy (jGet fields "reasoning") = false then
    jSet fields "reasoning" (.str autofillReasoning)
  else fields

/-- Third normalization fix: a payload shaped as a bare use_skill property
with no action becomes the canonical use_skill action. -/
def fixUseSkillShape (fields : List (String × Json)) : List (String × Json) :=
  if truthy (jGet fields "use_skill") = true ∧ truthy (jGet fields "action") = false then
    match jGet fields "use_skill" with
    | some u =>
        jDel (jSet (jSet fields "action" (.str "use_skill")) "skill_name" u) "use_skill"
    | none => fields
  else fields

/-- The normalization pass of parseAction over the fields of the parsed
object, in source order: the type_secret text-for-key fix, the reasoning
autofill, then the use_skill shape rewrite. -/
def normFields (fields : List (String × Json)) : List (String × Json) :=
  fixUseSkillShape (fixMissingReasoning (fixTypeSecretKey fields))

/-- parseAction normalization on the parsed JSON value (a non-object
passes through and fails validation). -/
def normalizeParsed : Json → Json
  | .obj fields => .obj (normFields fields)
  | j => j

/-- A property read as a zod string. -/
def asStr : Option Json → Option String
  | some (.str s) => some s
  | _ => none

/-- A property read as a zod number (integral values suffice for the
claims proved here). -/
def asNum : Option Json → Option Int
  | some (.num n) => some n
  | _ => none

/-- ActionSchema.parse: the zod discriminated union on the action tag;
each variant checks its required fields (zod strips unknown keys rather
than rejecting them). -/
def validateAction : Json → Except String AgentAction
  | .obj fields =>
      match jGet fields "action" with
      | some (.str "navigate") =>
          match asStr (jGet fields "url"), asStr (jGet fields "reasoning") with
          | some url, some reasoning => .ok (.navigate url reasoning)
          | _, _ => .error "navigate: url and reasoning must be strings"
      | some (.str "click") =>
          match asNum (jGet fields "x"), asNum (jGet fields "y"),
              asStr (jGet fields "reasoning") with
          | some x, some y, some reasoning => .ok (.click x y reasoning)
          | _, _, _ => .error "click: x, y and reasoning required"
      | some (.str "type") =>
          match asNum (jGet fields "x"), asNum (jGet fields "y"),
              asStr (jGet fields "text"), asStr (jGet fields "reasoning") with
          | some x, some y, some text, some reasoning => .ok (.type x y text reasoning)
          | _, _, _, _ => .error "type: x, y, text and reasoning required"
      | some (.str "scroll") =>
          match asStr (jGet fields "direction"), asStr (jGet fields "reasoning") with
          | some d, some reasoning =>
              if d = "up" ∨ d = "down" then .ok (.scroll d reasoning)
              else .error "scroll: direction must be up or down"
          | _, _ => .error "scroll: direction and reasoning required"
      | some (.str "ask_human") =>
          match asStr (jGet fields "question"), asStr (jGet fields "reasoning") with
          | some q, some reasoning => .ok (.ask_human q reasoning)
          | _, _ => .error "ask_human: question and reasoning required"
      | some (.str "done") =>
          match asStr (jGet fields "summary"), asStr (jGet fields "reasoning") with
          | some s, some reasoning => .ok (.done s reasoning)
          | _, _ => .error "done: summary and reasoning required"
      | some (.str "error") =>
          match asStr (jGet fields "message"), asStr (jGet fields "reasoning") with
          | some m, some reasoning => .ok (.error m reasoning)
          | _, _ => .error "error: message and reasoning required"
      | some (.str "use_skill") =>
          match asStr (jGet fields "skill_name"), asStr (jGet fields "reasoning") with
          | some n, some reasoning => .ok (.use_skill n reasoning)
          | _, _ => .error "use_skill: skill_name and reasoning required"
      | some (.str "type_secret") =>
          match asStr (jGet fields "key"), asNum (jGet fields "x"),
              asNum (jGet fields "y"), asStr (jGet fields "reasoning") with
          | some key, some x, some y, some reasoning =>
              .ok (.type_secret key x y reasoning)
          | _, _, _, _ => .error "type_secret: key, x, y and reasoning required"
      | some (.str "type_test_account_secret") =>
          match asStr (jGet fields "field"), asNum (jGet fields "x"),
              asNum (jGet fields "y"), asStr (jGet fields "reasoning") with
          | some field, some x, some y, some reasoning =>
              if field = "username" ∨ field = "password" then
                .ok (.type_test_account_secret field x y reasoning)
              else .error "type_test_account_secret: field must be username or password"
          | _, _, _, _ =>
              .error "type_test_account_secret: field, x, y and reasoning required"
      | some (.str "run_script") =>
          match asStr (jGet fields "skill_name"), asStr (jGet fields "script"),
              jGet fields "args", asStr (jGet fields "reasoning") with
          | some n, some script, some (.obj args), some reasoning =>
              .ok (.run_script n script args reasoning)
          | _, _, _, _ =>
              .error "run_script: skill_name, script, args and reasoning required"
      | _ => .error "invalid discriminator value for action"
  | _ => .error "expected object"

/-- parseAction after JSON.parse succeeded: normalize, then validate; a
residual validation failure becomes a structured error action rather than
an exception (the source also appends a truncated snippet of the raw text,
which lives at the string layer outside this model). -/
def parseActionModel (j : Json) : AgentAction :=
  match validateAction (normalizeParsed j) with
  | .ok a => a
  | .error e =>
      .error ("Failed to parse LLM response: Validation error: " ++ e)
        "LLM returned invalid output"

/-- Whether an AgentAction is the error variant. -/
def isErrorAction : AgentAction → Bool
  | .error _ _ => true
  | _ => false

theorem jGet_jSet_self (f : List (String × Json)) (k : String) (v : Json) :
    jGet (jSet f k v) k = some v := by
  induction f with
  | nil => simp [jSet, jGet]
  | cons p rest ih =>
      obtain ⟨k2, w⟩ := p
      by_cases h : k2 = k
      · simp [jSet, jGet, h]
      · simp [jSet, jGet, h, ih]

theorem jGet_jSet_other (f : List (String × Json)) (k k2 : String) (v : Json)
    (h : k ≠ k2) : jGet (jSet f k v) k2 = jGet f k2 := by
  induction f with
  | nil => simp [jSet, jGet, h]
  | cons p rest ih =>
      obtain ⟨k3, w⟩ := p
      by_cases h3 : k3 = k
      · subst h3
        simp [jSet, jGet, h]
      · simp [jSet, jGet, h3, ih]

theorem jGet_jDel_self (f : List (String × Json)) (k : String) :
    jGet (jDel f k) k = none := by
  induction f with
  | nil => simp [jDel, jGet]
  | cons p rest ih =>
      obtain ⟨k2, w⟩ := p
      by_cases h : k2 = k
      · simp [jDel, h, ih]
      · simp [jDel, jGet, h, ih]

theorem jGet_jDel_other (f : List (String × Json)) (k k2 : String)
    (h : k ≠ k2) : jGet (jDel f k) k2 = jGet f k2 := by
  induction f with
  | nil => simp [jDel]
  | cons p rest ih =>
      obtain ⟨k3, w⟩ := p
      by_cases h3 : k3 = k
      · subst h3
        simp [jDel, jGet, h, ih]
      · simp [jDel, jGet, h3, ih]

theorem isStr_false_of_not_truthy (o : Option Json) (s : String)
    (hs : s ≠ "") (h : truthy o = false) : isStr o s = false := by
  match o with
  | none => rfl
  | some .null => rfl
  | some (.bool b) => rfl
  | some (.num n) => rfl
  | some (.str t) =>
      simp [truthy] at h
      subst h
      simp [isStr]
      exact fun he => hs he.symm
  | some (.arr a) => simp [truthy] at h
  | some (.obj f) => simp [truthy] at h

theorem fixTypeSecretKey_preserves (f : List (String × Json)) (k : String)
    (hk1 : k ≠ "key") (hk2 : k ≠ "text") :
    jGet (fixTypeSecretKey f) k = jGet f k := by
  unfold fixTypeSecretKey
  split
  · cases ht : jGet f "text" with
    | none => rfl
    | some t =>
        rw [jGet_jDel_other _ _ _ (Ne.symm hk2), jGet_jSet_other _ _ _ _ (Ne.symm hk1)]
  · rfl

theorem fixMissingReasoning_preserves (f : List (String × Json)) (k : String)
    (hk : k ≠ "reasoning") :
    jGet (fixMissingReasoning f) k = jGet f k := by
  unfold fixMissingReasoning
  split
  · rw [jGet_jSet_other _ _ _ _ (Ne.symm hk)]
  · rfl

theorem fixUseSkillShape_preserves (f : List (String × Json)) (k : String)
    (hk1 : k ≠ "action") (hk2 : k ≠ "skill_name") (hk3 : k ≠ "use_skill") :
    jGet (fixUseSkillShape f) k = jGet f k := by
  unfold fixUseSkillShape
  split
  · cases hu : jGet f "use_skill" with
    | none => rfl
    | some u =>
        rw [jGet_jDel_other _ _ _ (Ne.symm hk3),
          jGet_jSet_other _ _ _ _ (Ne.symm hk2), jGet_jSet_other _ _ _ _ (Ne.symm hk1)]
  · rfl

/-- C6: the normalization pass applied before strict schema validation
rewrites a parsed type_secret payload carrying text but no key into one
using key (deleting text); auto-fills a missing reasoning with the
placeholder on any payload with a (truthy) action field; rewrites a bare
use_skill-shaped payload with no action into the canonical use_skill
action; the two concrete examples of the spec normalize exactly as
stated; and a residual validation failure yields a structured error
action rather than an exception. -/
theorem parse_action_normalization :
    (∀ fields : List (String × Json),
      isStr (jGet fields "action") "type_secret" = true →
      truthy (jGet fields "key") = false →
      truthy (jGet fields "text") = true →
      jGet (normFields fields) "key" = jGet fields "text"
      ∧ jGet (normFields fields) "text" = none
      ∧ jGet (normFields fields) "action" = jGet fields "action")
    ∧ (∀ fields : List (String × Json),
      truthy (jGet fields "action") = true →
      truthy (jGet fields "reasoning") = false →
      jGet (normFields fields) "reasoning" = some (.str autofillReasoning))
    ∧ (∀ fields : List (String × Json),
      truthy (jGet fields "use_skill") = true →
      truthy (jGet fields "action") = false →
      jGet (normFields fields) "action" = some (.str "use_skill")
      ∧ jGet (normFields fields) "skill_name" = jGet fields "use_skill"
      ∧ jGet (normFields fields) "use_skill" = none)
    ∧ (jGet (normFields [("action", .str "type_secret"), ("text", .str "FOO")]) "key"
        = some (.str "FOO")
      ∧ jGet (normFields [("action", .str "type_secret"), ("text", .str "FOO")]) "text"
        = none
      ∧ jGet (normFields [("action", .str "type_secret"), ("text", .str "FOO")])
          "action" = some (.str "type_secret"))
    ∧ (jGet (normFields [("use_skill", .str "standard-login")]) "action"
        = some (.str "use_skill")
      ∧ jGet (normFields [("use_skill", .str "standard-login")]) "skill_name"
        = some (.str "standard-login")
      ∧ jGet (normFields [("use_skill", .str "standard-login")]) "use_skill" = none)
    ∧ (∀ (j : Json) (e : String),
      validateAction (normalizeParsed j) = .error e →
      isErrorAction (parseActionModel j) = true) := by
  refine ⟨?_, ?_, ?_, ⟨rfl, rfl, rfl⟩, ⟨rfl, rfl, rfl⟩, ?_⟩
  · intro fields h1 h2 h3
    obtain ⟨a, hact⟩ : ∃ a, jGet fields "action" = some (.str a) ∧ a = "type_secret" := by
      cases hx : jGet fields "action" with
      | none => rw [hx] at h1; simp [isStr] at h1
      | some v =>
          cases v with
          | str t =>
              rw [hx] at h1
              simp [isStr] at h1
              exact ⟨t, rfl, h1⟩
          | null => rw [hx] at h1; simp [isStr] at h1
          | bool b => rw [hx] at h1; simp [isStr] at h1
          | num n => rw [hx] at h1; simp [isStr] at h1
          | arr xs => rw [hx] at h1; simp [isStr] at h1
          | obj fs => rw [hx] at h1; simp [isStr] at h1
    obtain ⟨hact, ha⟩ := hact
    subst ha
    obtain ⟨t, ht⟩ : ∃ t, jGet fields "text" = some t := by
      cases hx : jGet fields "text" with
      | none => rw [hx] at h3; simp [truthy] at h3
      | some t => exact ⟨t, rfl⟩
    have hf1 : fixTypeSecretKey fields = jDel (jSet fields "key" t) "text" := by
      unfold fixTypeSecretKey
      rw [if_pos ⟨h1, h2, h3⟩, ht]
    have hkey1 : jGet (fixTypeSecretKey fields) "key" = some t := by
      rw [hf1, jGet_jDel_other _ _ _ (by decide), jGet_jSet_self]
    have htext1 : jGet (fixTypeSecretKey fields) "text" = none := by
      rw [hf1, jGet_jDel_self]
    have hact1 : jGet (fixTypeSecretKey fields) "action" = some (.str "type_secret") := by
      rw [fixTypeSecretKey_preserves _ _ (by decide) (by decide), hact]
    have hkey2 := fixMissingReasoning_preserves (fixTypeSecretKey fields) "key" (by decide)
    have htext2 := fixMissingReasoning_preserves (fixTypeSecretKey fields) "text" (by decide)
    have hact2 :
        jGet (fixMissingReasoning (fixTypeSecretKey fields)) "action"
          = some (.str "type_secret") := by
      rw [fixMissingReasoning_preserves _ _ (by decide), hact1]
    have hskip : fixUseSkillShape (fixMissingReasoning (fixTypeSecretKey fields))
        = fixMissingReasoning (fixTypeSecretKey fields) := by
      unfold fixUseSkillShape
      rw [if_neg]
      rintro ⟨_, hfalse⟩
      rw [hact2] at hfalse
      simp [truthy] at hfalse
    refine ⟨?_, ?_, ?_⟩
    · rw [normFields, hskip, hkey2, hkey1, ht]
    · rw [normFields, hskip, htext2, htext1]
    · rw [normFields, hskip, hact2, hact]
  · intro fields h1 h2
    have hact1 : jGet (fixTypeSecretKey fields) "action" = jGet fields "action" :=
      fixTypeSecretKey_preserves _ _ (by decide) (by decide)
    have hreas1 : jGet (fixTypeSecretKey fields) "reasoning" = jGet fields "reasoning" :=
      fixTypeSecretKey_preserves _ _ (by decide) (by decide)
    have hf2 : fixMissingReasoning (fixTypeSecretKey fields)
        = jSet (fixTypeSecretKey fields) "reasoning" (.str autofillReasoning) := by
      unfold fixMissingReasoning
      rw [if_pos]
      exact ⟨by rw [hact1]; exact h1, by rw [hreas1]; exact h2⟩
    have hreas2 : jGet (fixMissingReasoning (fixTypeSecretKey fields)) "reasoning"
        = some (.str autofillReasoning) := by
      rw [hf2, jGet_jSet_self]
    have hact2 : jGet (fixMissingReasoning (fixTypeSecretKey fields)) "action"
        = jGet fields "action" := by
      rw [hf2, jGet_jSet_other _ _ _ _ (by decide), hact1]
    have hskip : fixUseSkillShape (fixMissingReasoning (fixTypeSecretKey fields))
        = fixMissingReasoning (fixTypeSecretKey fields) := by
      unfold fixUseSkillShape
      rw [if_neg]
      rintro ⟨_, hfalse⟩
      rw [hact2, h1] at hfalse
      exact absurd hfalse (by decide)
    rw [normFields, hskip, hreas2]
  · intro fields h1 h2
    have hstr : isStr (jGet fields "action") "type_secret" = false :=
      isStr_false_of_not_truthy _ _ (by decide) h2
    have hf1 : fixTypeSecretKey fields = fields := by
      unfold fixTypeSecretKey
      rw [if_neg]
      rintro ⟨hfalse, _⟩
      rw [hstr] at hfalse
      exact absurd hfalse (by decide)
    have hf2 : fixMissingReasoning fields = fields := by
      unfold fixMissingReasoning
      rw [if_neg]
      rintro ⟨hfalse, _⟩
      rw [h2] at hfalse
      exact absurd hfalse (by decide)
    obtain ⟨u, hu⟩ : ∃ u, jGet fields "use_skill" = some u := by
      cases hx : jGet fields "use_skill" with
      | none => rw [hx] at h1; simp [truthy] at h1
      | some u => exact ⟨u, rfl⟩
    have hf3 : fixUseSkillShape fields
        = jDel (jSet (jSet fields "action" (.str "use_skill")) "skill_name" u)
            "use_skill" := by
      unfold fixUseSkillShape
      rw [if_pos ⟨h1, h2⟩, hu]
    have hnorm : normFields fields
        = jDel (jSet (jSet fields "action" (.str "use_skill")) "skill_name" u)
            "use_skill" := by
      rw [normFields, hf1, hf2, hf3]
    refine ⟨?_, ?_, ?_⟩
    · rw [hnorm, jGet_jDel_other _ _ _ (by decide),
        jGet_jSet_other _ _ _ _ (by decide), jGet_jSet_self]
    · rw [hnorm, jGet_jDel_other _ _ _ (by decide), jGet_jSet_self, hu]
    · rw [hnorm, jGet_jDel_self]
  · intro j e h
    simp [parseActionModel, h, isErrorAction]

/-- Witness for C6 at the two concrete payloads of the spec and at a
non-object payload failing validation. -/
theorem parse_action_normalization_witness :
    (isStr (jGet [("action", Json.str "type_secret"), ("text", Json.str "FOO")]
        "action") "type_secret" = true
      ∧ truthy (jGet [("action", Json.str "type_secret"), ("text", Json.str "FOO")]
          "key") = false
      ∧ truthy (jGet [("action", Json.str "type_secret"), ("text", Json.str "FOO")]
          "text") = true
      ∧ validateAction (normalizeParsed (Json.str "not an object"))
          = .error "expected object")
    ∧ (jGet (normFields [("action", Json.str "type_secret"), ("text", Json.str "FOO")])
          "key"
        = jGet [("action", Json.str "type_secret"), ("text", Json.str "FOO")] "text"
      ∧ jGet (normFields [("action", Json.str "type_secret"), ("text", Json.str "FOO")])
          "text" = none
      ∧ jGet (normFields [("action", Json.str "type_secret"), ("text", Json.str "FOO")])
          "action"
        = jGet [("action", Json.str "type_secret"), ("text", Json.str "FOO")] "action")
    ∧ isErrorAction (parseActionModel (Json.str "not an object")) = true :=
  ⟨⟨rfl, rfl, rfl, rfl⟩,
    parse_action_normalization.1
      [("action", Json.str "type_secret"), ("text", Json.str "FOO")] rfl rfl rfl,
    parse_action_normalization.2.2.2.2.2 (Json.str "not an object") "expected object" rfl⟩

end Schema

end Qaos
